import Mathlib

/-!
# Verification of the kb-platform-gateway document/conversation/query gateway

A shallow embedding, in Lean 4, of the core request handlers, the Postgres
repository layer and the two streaming-query client transports of the
`kb-platform-gateway` Go repository, together with proofs and refutations of
the frozen specification claims.

Conventions of the embedding:
* Go `time.Time` values are modelled as natural numbers (`Time`).
* Go `int`/`int64` are modelled as `Int`; sizes and counts that the source
  treats as non-negative list lengths use `Nat` where noted.
* Calls to external collaborators (Object Store, Vector Index, Workflow
  Engine) are recorded in explicit call traces, and their success or failure
  is supplied by an environment record, mirroring how the Go handlers observe
  only an `error` result from each collaborator.
* The Postgres state is an explicit record of the three tables; each SQL
  statement of the repository layer is translated into a pure function on
  that state, including the `AFTER INSERT` trigger installed by `schema.sql`.
-/

namespace KBGateway

/-- Timestamps (Go `time.Time`), modelled as an abstract totally ordered tick. -/
abbrev Time := Nat

/-- Model of `models.Document` (internal/models, `part_001`): the document JSON/DB shape. -/
structure Document where
  id : String
  uploadURL : String := ""
  s3Key : String := ""
  filename : String := ""
  fileSize : Int := 0
  status : String := ""
  errorMessage : String := ""
  createdAt : Time := 0
  indexedAt : Option Time := none
deriving Repr, DecidableEq

/-- Model of `models.Conversation` (internal/models, `part_001`). -/
structure Conversation where
  id : String
  createdAt : Time := 0
  updatedAt : Time := 0
  messageCount : Int := 0
deriving Repr, DecidableEq

/-- Model of `models.Message` (internal/models, `part_001`). -/
structure Message where
  id : String
  conversationID : String := ""
  role : String := ""
  content : String := ""
  createdAt : Time := 0
deriving Repr, DecidableEq

/-- Model of `models.SSEEvent` (internal/models and pkg/sse): the caller-facing
stream event shape, a type tag plus optional payload fields. -/
structure SSEEvent where
  type : String
  id : String := ""
  content : String := ""
  code : String := ""
  message : String := ""
deriving Repr, DecidableEq

/-- The state of the Record Store (the three Postgres tables of `schema.sql`). -/
structure DBState where
  documents : List Document := []
  conversations : List Conversation := []
  messages : List Message := []
deriving Repr, DecidableEq

/-! ## Repository layer (`PostgresRepository`, `part_008`) -/

/-- Model of `PostgresRepository.GetDocument` (`part_008` lines 276-298):
`SELECT ... FROM documents WHERE id = $1`; `sql.ErrNoRows` is translated to
a `nil` document (here `none`), not an error. -/
def getDocument (s : DBState) (id : String) : Option Document :=
  s.documents.find? (fun d => d.id = id)

/-- Model of `PostgresRepository.DeleteDocument` (`part_008` lines 370-374):
`DELETE FROM documents WHERE id = $1`. Deleting an absent row affects zero
rows and is not an error. -/
def deleteDocumentRow (s : DBState) (id : String) : DBState :=
  { s with documents := s.documents.filter (fun d => ¬ d.id = id) }

/-- Model of `PostgresRepository.CreateDocument` (`part_008` lines 261-274):
`INSERT INTO documents ...`. -/
def createDocumentRow (s : DBState) (doc : Document) : DBState :=
  { s with documents := s.documents ++ [doc] }

/-- Model of `PostgresRepository.CreateMessage` (`part_008` lines 492-500) together
with the `trg_update_conversation` `AFTER INSERT` trigger installed by
`schema.sql`: the single `INSERT INTO messages ...` statement also sets the
owning conversation's `updated_at` to `NOW()` and increments its
`message_count` by one, inside the same statement/transaction.  The trigger
fires per inserted row, so the whole effect is this one state transition. -/
def createMessage (s : DBState) (msg : Message) (now : Time) : DBState :=
  { s with
    messages := s.messages ++ [msg]
    conversations := s.conversations.map (fun c =>
      if c.id = msg.conversationID then
        { c with updatedAt := now, messageCount := c.messageCount + 1 }
      else c) }

/-- The `ORDER BY created_at ASC` comparison used for messages. -/
def msgLE (a b : Message) : Prop := a.createdAt ≤ b.createdAt

instance : DecidableRel msgLE := fun a b => Nat.decLe a.createdAt b.createdAt

instance : IsTotal Message msgLE := ⟨fun a b => Nat.le_total a.createdAt b.createdAt⟩

instance : IsTrans Message msgLE := ⟨fun _ _ _ h h' => Nat.le_trans h h'⟩

/-- Model of `PostgresRepository.GetMessagesByConversationID` (`part_008` lines
502-527): `SELECT ... WHERE conversation_id = $1 ORDER BY created_at ASC
LIMIT $2 OFFSET $3`. The sort is modelled by insertion sort on `created_at`;
`OFFSET`/`LIMIT` by `drop`/`take`. -/
def getMessagesByConversationID (s : DBState) (conversationID : String)
    (limit offset : Int) : List Message :=
  ((((s.messages.filter (fun m => m.conversationID = conversationID)).insertionSort
    msgLE).drop offset.toNat).take limit.toNat)

/-- Model of `PostgresRepository.GetConversation` (`part_008` lines 410-440):
`SELECT id, created_at, updated_at, message_count FROM conversations WHERE
id = $1`, with `sql.ErrNoRows` translated to `none`. -/
def getConversation (s : DBState) (id : String) : Option Conversation :=
  s.conversations.find? (fun c => c.id = id)

/-- The `ORDER BY created_at DESC` comparison used for conversations. -/
def convDescLE (a b : Conversation) : Prop := b.createdAt ≤ a.createdAt

instance : DecidableRel convDescLE := fun a b => Nat.decLe b.createdAt a.createdAt

/-- Model of `PostgresRepository.ListConversations` (`part_008` lines 442-480):
`SELECT id, created_at, updated_at, message_count FROM conversations ORDER BY
created_at DESC LIMIT $1 OFFSET $2`, then `SELECT COUNT(*) FROM
conversations`.  Note the SQL mentions neither `userID` nor any per-user
filter: the `userID` argument is accepted and ignored. -/
def listConversations (s : DBState) (userID : String) (limit offset : Int) :
    List Conversation × Int :=
  ((((s.conversations.insertionSort convDescLE).drop offset.toNat).take limit.toNat),
    (s.conversations.length : Int))

/-! ## Query-parameter parsing (`strconv.Atoi` and the handlers' limit/offset
logic, `part_007` lines 157-172, 287-303 and 353-368) -/

/-- Decimal value of a digit list. -/
def digitsVal (ds : List Char) : Nat :=
  ds.foldl (fun a d => a * 10 + (d.toNat - 48)) 0

/-- Whether every character is an ASCII decimal digit. -/
def allDigits (ds : List Char) : Bool :=
  ds.all (fun d => '0' ≤ d ∧ d ≤ '9')

/-- Go `strconv.Atoi` on a 64-bit platform: an optional sign followed by at
least one decimal digit, rejecting anything else; values outside the `int64`
range return `ErrRange` (a non-`nil` error, hence `none` here). -/
def goAtoi (s : String) : Option Int :=
  match s.data with
  | [] => none
  | c :: rest =>
    let (neg, digits) :=
      if c = '+' then (false, rest)
      else if c = '-' then (true, rest)
      else (false, c :: rest)
    if digits.isEmpty then none
    else if allDigits digits then
      let v := digitsVal digits
      if neg then
        if v ≤ 9223372036854775808 then some (-(v : Int)) else none
      else
        if v ≤ 9223372036854775807 then some (v : Int) else none
    else none

/-- The limit parameter logic shared verbatim by `ListDocuments`
(`part_007` lines 158-166), `ListConversations` (lines 288-297) and
`GetConversationMessages` (lines 355-362): `limit := 50`, then if the query
string is non-empty, `Atoi` succeeds and `0 < l ∧ l ≤ 100`, use it.
An absent query parameter is the empty string (`gin` `c.Query`). -/
def effectiveLimit (limitStr : String) : Int :=
  if limitStr ≠ "" then
    match goAtoi limitStr with
    | some l => if 0 < l ∧ l ≤ 100 then l else 50
    | none => 50
  else 50

/-- The offset parameter logic shared verbatim by the same three handlers:
`offset := 0`, then if the query string is non-empty, `Atoi` succeeds and
`o ≥ 0`, use it. -/
def effectiveOffset (offsetStr : String) : Int :=
  if offsetStr ≠ "" then
    match goAtoi offsetStr with
    | some o => if 0 ≤ o then o else 0
    | none => 0
  else 0

/-- Model of `models.ConversationListResponse` (`part_001`). -/
structure ConversationListResponse where
  conversations : List Conversation
  total : Int
  limit : Int
  offset : Int
deriving Repr, DecidableEq

/-- Model of `Handlers.ListConversations` (`part_007` lines 287-328): the
requesting user's name is read from the auth context (`c.GetString
("username")`), the limit/offset parameters are parsed, and the repository's
`ListConversations` is invoked with all three. -/
def listConversationsHandler (db : DBState) (username : String)
    (limitStr offsetStr : String) : ConversationListResponse :=
  let limit := effectiveLimit limitStr
  let offset := effectiveOffset offsetStr
  let r := listConversations db username limit offset
  { conversations := r.1, total := r.2, limit := limit, offset := offset }

/-! ## Document handlers (`part_007`) -/

/-- One recorded call to an external collaborator, as issued by the
document handlers. -/
inductive ExtCall where
  /-- Model of `h.Repository.GetDocument` -/
  | recordGet (id : String)
  /-- Model of `h.S3Client.DeleteObject` -/
  | s3Delete (key : String)
  /-- Model of `h.QdrantClient.DeleteDocumentVectors` -/
  | vectorDelete (documentID : String)
  /-- Model of `h.Repository.DeleteDocument` -/
  | recordDelete (id : String)
deriving Repr, DecidableEq

/-- Outcomes of the collaborator calls that `DeleteDocument` can observe:
the Record Store lookup either errors (`Except.error`) or yields an optional
row, and each deletion either succeeds or returns an error. -/
structure DeleteEnv where
  getDocResult : Except Unit (Option Document)
  s3DeleteOk : Bool
  qdrantDeleteOk : Bool
  recordDeleteOk : Bool

/-- The response shapes `DeleteDocument` can produce. -/
inductive DeleteResp where
  /-- Model of `c.Status(http.StatusNoContent)` (204) -/
  | noContent
  /-- Model of `c.JSON(http.StatusInternalServerError, ...)` with code `INTERNAL_ERROR` -/
  | internalError (message : String)
deriving Repr, DecidableEq

/-- Model of `Handlers.DeleteDocument` (`part_007` lines 227-264).  The handler loads
the document; on a lookup error it returns 500.  If a row was found and has
an S3 key, it deletes the object — a failure there is only logged.  It then
unconditionally deletes the document's vectors — a failure there is only
logged.  Finally it deletes the Record Store row; only a failure of that
step is returned to the caller, otherwise 204. -/
def deleteDocumentHandler (env : DeleteEnv) (documentID : String) :
    DeleteResp × List ExtCall :=
  match env.getDocResult with
  | .error _ => (.internalError "Failed to get document", [.recordGet documentID])
  | .ok doc =>
    let calls1 : List ExtCall :=
      match doc with
      | some d =>
        if ¬ d.s3Key = "" then [.recordGet documentID, .s3Delete d.s3Key]
        else [.recordGet documentID]
      | none => [.recordGet documentID]
    let calls2 := calls1 ++ [.vectorDelete documentID, .recordDelete documentID]
    if env.recordDeleteOk then (.noContent, calls2)
    else (.internalError "Failed to delete document", calls2)

/-- Model of `DeleteDocument` run against a concrete Record Store state whose lookup
succeeds (the `GetDocument` SQL of `part_008` returning the row, or `none`
for `sql.ErrNoRows`) and whose row deletion succeeds (the `DELETE` of
`part_008` lines 370-374, which does not error on zero affected rows). -/
def deleteDocumentAgainstDB (db : DBState) (s3Ok qdrantOk : Bool)
    (documentID : String) : DeleteResp × List ExtCall :=
  deleteDocumentHandler
    { getDocResult := .ok (getDocument db documentID)
      s3DeleteOk := s3Ok, qdrantDeleteOk := qdrantOk, recordDeleteOk := true }
    documentID

/-- Calls to the Workflow Engine (`TemporalClient`, `part_003`). -/
inductive TemporalCall where
  /-- Model of `ExecuteWorkflow` with workflow id `upload-<documentID>` (`part_003` lines 52-67) -/
  | startUploadWorkflow (workflowID s3Key : String)
  /-- Model of `SignalWorkflow(ctx, "upload-<documentID>", "", "upload-complete", nil)`
  (`part_003` lines 69-71) -/
  | signalUploadComplete (workflowID signalName : String)
deriving Repr, DecidableEq

/-- The response shapes `CompleteUpload` can produce. -/
inductive CompleteUploadResp where
  /-- 200 with `models.Document{ID: documentID, Status: "indexing"}` -/
  | okStatus (id status : String)
  /-- 500 with code `INTERNAL_ERROR` -/
  | internalError (message : String)
deriving Repr, DecidableEq

/-- Model of `Handlers.CompleteUpload` (`part_007` lines 266-285): signal the upload
workflow `upload-<id>`; a signal error becomes a 500, otherwise the handler
answers 200 with the literal status string `"indexing"`.  The Record Store
is never consulted and no workflow is ever started here, which the returned
trace makes explicit. -/
def completeUploadHandler (signalOk : Bool) (documentID : String) :
    CompleteUploadResp × List TemporalCall :=
  let calls : List TemporalCall :=
    [.signalUploadComplete ("upload-" ++ documentID) "upload-complete"]
  if signalOk then (.okStatus documentID "indexing", calls)
  else (.internalError "Failed to signal upload complete", calls)

/-- Whether a Workflow Engine call is a workflow start. -/
def isWorkflowStart : TemporalCall → Bool
  | .startUploadWorkflow _ _ => true
  | .signalUploadComplete _ _ => false

/-! ## UploadDocument (`part_007` lines 86-155) -/

/-- Environment of one `UploadDocument` request: the identifier produced by
`uuid.New().String()`, the clock, and the outcome of each collaborator call
the handler makes (presigned-URL generation, Record Store insert, workflow
start). -/
structure UploadEnv where
  newID : String
  now : Time
  /-- Result of `S3Client.GeneratePresignedUploadURL`: the URL, or `none` on error. -/
  presignResult : Option String
  createDocOk : Bool
  startWorkflowOk : Bool

/-- Calls made by `UploadDocument`, in order. -/
inductive UploadCall where
  /-- S3 `GeneratePresignedUploadURL(s3Key, 15*time.Minute)` -/
  | presign (s3Key : String) (ttlMinutes : Nat)
  /-- Repository `CreateDocument(doc)` -/
  | createDocument (doc : Document)
  /-- Temporal `StartUploadWorkflow(documentID, s3Key)` -/
  | startUploadWorkflow (documentID s3Key : String)
deriving Repr, DecidableEq

/-- Responses of `UploadDocument`. -/
inductive UploadResp where
  /-- 400 `VALIDATION_ERROR` (no file in the multipart form) -/
  | badRequest (message : String)
  /-- 500 `INTERNAL_ERROR` -/
  | internalError (message : String)
  /-- 200 with the created document (including the upload URL) -/
  | okDoc (doc : Document)
deriving Repr, DecidableEq

/-- Model of `Handlers.UploadDocument` (`part_007` lines 86-155).  Input
`file` is the multipart file (`none` when `c.FormFile` fails): filename and
size.  The handler derives `s3Key = "documents/" ++ id ++ "/" ++ filename`,
requests a 15-minute presigned URL, persists the row with status
`"pending"`, then starts the upload workflow; each failure short-circuits
with an error response.  The result is the response, the ordered call
trace, and the Record Store state afterwards. -/
def uploadDocumentHandler (env : UploadEnv) (db : DBState)
    (file : Option (String × Int)) : UploadResp × List UploadCall × DBState :=
  match file with
  | none => (.badRequest "No file provided", [], db)
  | some (filename, size) =>
    let documentID := env.newID
    let s3Key := "documents/" ++ documentID ++ "/" ++ filename
    match env.presignResult with
    | none => (.internalError "Failed to generate upload URL", [.presign s3Key 15], db)
    | some uploadURL =>
      let doc : Document :=
        { id := documentID, s3Key := s3Key, filename := filename,
          fileSize := size, status := "pending", createdAt := env.now }
      if env.createDocOk then
        let db1 := createDocumentRow db doc
        let calls := [UploadCall.presign s3Key 15, .createDocument doc,
          .startUploadWorkflow documentID s3Key]
        if env.startWorkflowOk then
          (.okDoc { doc with uploadURL := uploadURL }, calls, db1)
        else
          (.internalError "Failed to start upload workflow", calls, db1)
      else
        (.internalError "Failed to save document",
          [UploadCall.presign s3Key 15, .createDocument doc], db)

/-! ## Query topK defaulting (`part_007` lines 392-432, client.go lines 28-49) -/

/-- Model of `models.QueryRequest` (`part_001`): the bound JSON body.  A JSON
body without `top_k` binds the Go zero value `0`. -/
structure QueryRequest where
  query : String
  conversationID : String := ""
  topK : Int := 0
deriving Repr, DecidableEq

/-- The defaulting step of `Handlers.Query` (`part_007` lines 404-406):
`if req.TopK == 0 { req.TopK = 5 }`. -/
def queryWithDefaultTopK (req : QueryRequest) : QueryRequest :=
  if req.topK = 0 then { req with topK := 5 } else req

/-- Model of `PythonCoreClient.Query`'s request construction (client.go lines
28-38): the JSON body posted to the backend carries `query`,
`conversation_id` and `top_k` exactly as passed in. -/
def coreClientQueryBody (query conversationID : String) (topK : Int) : QueryRequest :=
  { query := query, conversationID := conversationID, topK := topK }

/-- The `top_k` value the backend query service receives for a caller
request: the handler applies the zero-default and then forwards the fields
to `PythonCoreClient.Query`. -/
def forwardedTopK (req : QueryRequest) : Int :=
  let r := queryWithDefaultTopK req
  (coreClientQueryBody r.query r.conversationID r.topK).topK

/-! ## Streaming query transports

The HTTP fallback transport (`PythonCoreClient.Query`, client.go lines
28-90) reads the chunked response body with `bufio.Reader.ReadBytes('\n')`
and tries to assemble `data: <json>` frames; the gRPC transport
(`GrpcCoreClient.QueryStream`, `part_002` lines 50-82) receives typed proto
events which the handler converts with `convertProtoEventToSSE`
(`part_006` lines 445-473). -/

/-- Model of Go `bufio.Reader.ReadBytes('\n')` applied repeatedly to a byte
stream: each returned slice contains the data up to and including the first
newline; a final chunk without a newline is returned just before the
read that reports the stream's end. -/
def readLinesAux : List Char → List Char → List (List Char)
  | cur, [] => if cur.isEmpty then [] else [cur]
  | cur, c :: rest =>
    if c = '\n' then (cur ++ [c]) :: readLinesAux [] rest
    else readLinesAux (cur ++ [c]) rest

/-- Model of `bytes.HasSuffix(line, []byte("\n\n"))` from client.go line 74:
the line's last two bytes are both newlines. -/
def hasSuffixNN (line : List Char) : Bool :=
  match line.reverse with
  | c1 :: c2 :: _ => c1 = '\n' && c2 = '\n'
  | _ => false

/-- State of the HTTP read loop: the `bytes.Buffer` accumulator and the
events sent to the channel so far. -/
structure HttpLoopState where
  buffer : List Char := []
  events : List SSEEvent := []
deriving Repr, DecidableEq

/-- One iteration of the HTTP read loop of `PythonCoreClient.Query`
(client.go lines 71-85) on a line returned by `ReadBytes`: append the line
to the buffer; if the line ends in a double newline, take the buffered data,
emit it as an event when it has the `data: ` prefix and its JSON payload
unmarshals (the `parse` argument models `json.Unmarshal` into
`models.SSEEvent`; a failed unmarshal emits nothing), and reset the buffer. -/
def processLine (parse : List Char → Option SSEEvent) (st : HttpLoopState)
    (line : List Char) : HttpLoopState :=
  let buffer := st.buffer ++ line
  if hasSuffixNN line then
    let data := buffer
    let events :=
      if data.length > 6 ∧ data.take 6 = "data: ".data then
        match parse (data.drop 6) with
        | some e => st.events ++ [e]
        | none => st.events
      else st.events
    { buffer := [], events := events }
  else { buffer := buffer, events := st.events }

/-- The terminal `error` event the HTTP transport emits when the body read
fails with an error other than `io.EOF` (client.go lines 60-68). -/
def streamErrorEvent (msg : String) : SSEEvent :=
  { type := "error", code := "STREAM_ERROR", message := msg }

/-- Model of the full event stream the HTTP transport delivers for one query:
the read loop consumes every line of `body`, and the final read reports
`endErr` (`io.EOF` stringifies to `"EOF"` and ends the stream silently; any
other error appends one `STREAM_ERROR` event and ends the stream). -/
def httpStreamEvents (parse : List Char → Option SSEEvent) (body : String)
    (endErr : String) : List SSEEvent :=
  let st := (readLinesAux [] body.data).foldl (processLine parse) {}
  if endErr = "EOF" then st.events else st.events ++ [streamErrorEvent endErr]

/-- The proto `QueryResponse` oneof received over the gRPC transport:
`start`/`chunk`/`end`/`error` variants, or any other (unrecognized/absent)
variant, which the conversion's `default` case handles. -/
inductive ProtoQueryEvent where
  | start (requestId : String)
  | chunk (content : String)
  | endOfStream (requestId : String)
  | errorEv (code message : String)
  | unrecognized
deriving Repr, DecidableEq

/-- Model of `convertProtoEventToSSE` (`part_006` lines 445-473): translate
each proto variant into the caller-facing event shape; the `default` case
produces the catch-all type `"unknown"`. -/
def convertProtoEventToSSE : ProtoQueryEvent → SSEEvent
  | .start rid => { type := "start", id := rid }
  | .chunk content => { type := "chunk", content := content }
  | .endOfStream rid => { type := "end", id := rid }
  | .errorEv code message => { type := "error", code := code, message := message }
  | .unrecognized => { type := "unknown" }

/-- How the gRPC receive goroutine ends: `stream.Recv` returns `io.EOF`, or
some other error. -/
inductive RecvEnd where
  | eof
  | recvError (msg : String)
deriving Repr, DecidableEq

/-- Model of the receive loop of `GrpcCoreClient.QueryStream` (`part_002`
lines 64-79): every successfully received frame is forwarded to the channel;
on `io.EOF` the goroutine returns; on any other error it logs the error and
returns — the channel is closed either way and nothing further is sent. -/
def grpcRecvLoop : List ProtoQueryEvent → RecvEnd → List ProtoQueryEvent
  | [], .eof => []
  | [], .recvError _ => []
  | f :: rest, e => f :: grpcRecvLoop rest e

/-- The caller-facing event stream on the gRPC transport: the handler
(`part_006` lines 352-371) maps every channel element through
`convertProtoEventToSSE` onto the SSE response. -/
def grpcQueryEvents (frames : List ProtoQueryEvent) (endState : RecvEnd) :
    List SSEEvent :=
  (grpcRecvLoop frames endState).map convertProtoEventToSSE

/-! ## Supporting lemmas -/

/-- A byte list containing no newline fails the double-newline suffix test. -/
theorem hasSuffixNN_eq_false_of_no_newline {w : List Char} (h : '\n' ∉ w) :
    hasSuffixNN w = false := by
  unfold hasSuffixNN
  cases hw : w.reverse with
  | nil => rfl
  | cons c t =>
    have hc : c ∈ w := (List.mem_reverse).1 (hw ▸ List.mem_cons_self c t)
    have hne : ¬ c = '\n' := fun he => h (he ▸ hc)
    cases t with
    | nil => rfl
    | cons c2 t2 => simp [hne]

/-- A single line returned by `ReadBytes('\n')` — a newline-free prefix plus
one final newline — fails the double-newline suffix test. -/
theorem hasSuffixNN_eq_false_of_single_newline {w : List Char} (h : '\n' ∉ w) :
    hasSuffixNN (w ++ ['\n']) = false := by
  unfold hasSuffixNN
  rw [List.reverse_append]
  simp only [List.reverse_cons, List.reverse_nil, List.nil_append, List.singleton_append]
  cases hw : w.reverse with
  | nil => rfl
  | cons c t =>
    have hc : c ∈ w := (List.mem_reverse).1 (hw ▸ List.mem_cons_self c t)
    have hne : ¬ c = '\n' := fun he => h (he ▸ hc)
    simp [hne]

/-- Every line produced by the modelled `ReadBytes` loop fails the
double-newline suffix test, provided the carried partial line holds no
newline. -/
theorem readLinesAux_hasSuffixNN_false :
    ∀ (cs cur : List Char), '\n' ∉ cur →
      ∀ l ∈ readLinesAux cur cs, hasSuffixNN l = false := by
  intro cs
  induction cs with
  | nil =>
    intro cur h l hl
    unfold readLinesAux at hl
    by_cases hc : cur.isEmpty
    · simp [hc] at hl
    · simp [hc] at hl
      exact hl ▸ hasSuffixNN_eq_false_of_no_newline h
  | cons c rest ih =>
    intro cur h l hl
    unfold readLinesAux at hl
    by_cases hcn : c = '\n'
    · subst hcn
      simp only [if_pos rfl] at hl
      rcases List.mem_cons.1 hl with rfl | hl'
      · exact hasSuffixNN_eq_false_of_single_newline h
      · exact ih [] (by simp) l hl'
    · rw [if_neg hcn] at hl
      refine ih (cur ++ [c]) ?_ l hl
      intro hmem
      rcases List.mem_append.1 hmem with hmem | hmem
      · exact h hmem
      · have hce : c = '\n' := by
          have : '\n' = c := by simpa using hmem
          exact this.symm
        exact hcn hce

/-- If no line passes the suffix test, the read loop never emits an event. -/
theorem foldl_processLine_events (parse : List Char → Option SSEEvent) :
    ∀ (lines : List (List Char)) (st : HttpLoopState),
      (∀ l ∈ lines, hasSuffixNN l = false) →
      ((lines.foldl (processLine parse) st).events = st.events) := by
  intro lines
  induction lines with
  | nil => intro st _; rfl
  | cons l ls ih =>
    intro st h
    have hl : hasSuffixNN l = false := h l (List.mem_cons_self _ _)
    have hstep : (processLine parse st l).events = st.events := by
      simp [processLine, hl]
    calc ((l :: ls).foldl (processLine parse) st).events
        = (ls.foldl (processLine parse) (processLine parse st l)).events := rfl
      _ = (processLine parse st l).events :=
          ih _ (fun x hx => h x (List.mem_cons_of_mem _ hx))
      _ = st.events := hstep

/-- The HTTP transport's full stream: no data frame is ever completed, so the
only possible output is the terminal `STREAM_ERROR` event. -/
theorem httpStreamEvents_eq (parse : List Char → Option SSEEvent)
    (body : String) (endErr : String) :
    httpStreamEvents parse body endErr =
      if endErr = "EOF" then [] else [streamErrorEvent endErr] := by
  unfold httpStreamEvents
  have h := readLinesAux_hasSuffixNN_false body.data [] (by simp)
  have he := foldl_processLine_events parse (readLinesAux [] body.data) {} h
  split <;> simp [he]

/-- The gRPC receive loop forwards exactly the successfully received frames,
however the stream ends. -/
theorem grpcRecvLoop_eq : ∀ (frames : List ProtoQueryEvent) (e : RecvEnd),
    grpcRecvLoop frames e = frames := by
  intro frames e
  induction frames with
  | nil => cases e <;> rfl
  | cons f rest ih => simpa [grpcRecvLoop] using ih

/-- A `find?` for a conversation id commutes with the per-row update applied
by the message-insert trigger, because the update preserves ids. -/
theorem find?_map_trigger (l : List Conversation) (mid : String) (now : Time) :
    ((l.map (fun x => if x.id = mid then
        { x with updatedAt := now, messageCount := x.messageCount + 1 }
      else x)).find? (fun x => x.id = mid))
    = (l.find? (fun x => x.id = mid)).map
        (fun c => { c with updatedAt := now, messageCount := c.messageCount + 1 }) := by
  induction l with
  | nil => rfl
  | cons a l ih =>
    by_cases ha : a.id = mid
    · simp [List.find?_cons, ha]
    · simp [List.find?_cons, ha, ih]

/-! ## Claim theorems -/

/-- C1: for every `Delete(documentID)` call where the document exists, a
failure of the Object Store deletion or of the Vector Index deletion does
not abort the sequence — the Record Store row deletion is still attempted
(it appears in the call trace for every environment), the external failures
do not influence the response (the handler's output is invariant under the
S3/Qdrant outcome flags, which the source only logs), and the caller sees
an error exactly when the Record Store row deletion fails. -/
theorem delete_fanout_external_failures_only_logged
    (env : DeleteEnv) (documentID : String) (d : Document)
    (hdoc : env.getDocResult = .ok (some d)) :
    ExtCall.recordDelete documentID ∈ (deleteDocumentHandler env documentID).2
    ∧ ((deleteDocumentHandler env documentID).1 =
        if env.recordDeleteOk then .noContent
        else .internalError "Failed to delete document")
    ∧ (∀ s3Ok qdrantOk : Bool,
        deleteDocumentHandler
          { env with s3DeleteOk := s3Ok, qdrantDeleteOk := qdrantOk } documentID
          = deleteDocumentHandler env documentID) := by
  refine ⟨?_, ?_, fun _ _ => rfl⟩
  · unfold deleteDocumentHandler
    rw [hdoc]
    by_cases hs : d.s3Key = "" <;> by_cases hr : env.recordDeleteOk <;>
      simp [hs, hr]
  · unfold deleteDocumentHandler
    rw [hdoc]
    by_cases hr : env.recordDeleteOk <;> simp [hr]

/-- Witness for C1 at a concrete environment: the document exists, both
external deletions fail, the record deletion succeeds, and the record
deletion is still attempted. -/
theorem delete_fanout_external_failures_only_logged_witness :
    ExtCall.recordDelete "d1" ∈
      (deleteDocumentHandler
        { getDocResult := .ok (some { id := "d1", s3Key := "documents/d1/a.pdf" })
          s3DeleteOk := false, qdrantDeleteOk := false, recordDeleteOk := true }
        "d1").2 :=
  (delete_fanout_external_failures_only_logged _ "d1" _ rfl).1

/-- C2 (failing-input evaluation): `Delete` of an identifier absent from the
Record Store — the lookup returns `none` (`sql.ErrNoRows`), every deletion
succeeds — answers 204 No Content, not `NotFound`, and the trace contains
one Vector Index deletion call (the source calls
`QdrantClient.DeleteDocumentVectors` unconditionally). -/
theorem delete_missing_document_succeeds_and_calls_vector_index :
    getDocument {} "missing-doc" = none
    ∧ deleteDocumentAgainstDB {} true true "missing-doc" =
        (.noContent,
          [.recordGet "missing-doc", .vectorDelete "missing-doc",
            .recordDelete "missing-doc"]) :=
  ⟨rfl, rfl⟩

/-- C3 (failing-input evaluation): `UploadComplete` on an identifier absent
from the Record Store, with the workflow signal succeeding, answers 200 with
the literal status `"indexing"` — the model's call trace shows that the
handler touches only the Workflow Engine (it never consults the Record
Store, so no `NotFound` is possible), and two successive calls issue zero
workflow starts. -/
theorem complete_upload_never_consults_record_store :
    completeUploadHandler true "missing-doc" =
      (.okStatus "missing-doc" "indexing",
        [.signalUploadComplete "upload-missing-doc" "upload-complete"])
    ∧ (((completeUploadHandler true "missing-doc").2 ++
        (completeUploadHandler true "missing-doc").2).countP isWorkflowStart = 0)
    ∧ (completeUploadHandler false "missing-doc").1 =
        .internalError "Failed to signal upload complete" :=
  ⟨rfl, rfl, rfl⟩

/-- C8: the `top_k` forwarded to the backend query service is 5 when the
caller's value is zero (or absent, which binds to zero) and the caller's
value unchanged otherwise. -/
theorem query_topk_defaults_to_five (req : QueryRequest) :
    (req.topK = 0 → forwardedTopK req = 5)
    ∧ (¬ req.topK = 0 → forwardedTopK req = req.topK) := by
  constructor <;> intro h <;>
    simp [forwardedTopK, queryWithDefaultTopK, coreClientQueryBody, h]

/-- Witness for C8 at concrete requests: zero defaults to 5, a nonzero value
is forwarded unchanged. -/
theorem query_topk_defaults_to_five_witness :
    forwardedTopK { query := "q", topK := 0 } = 5
    ∧ forwardedTopK { query := "q", topK := 7 } = 7 :=
  ⟨(query_topk_defaults_to_five _).1 rfl,
    (query_topk_defaults_to_five _).2 (by decide)⟩

/-- C9: `ListConversations` is independent of the requesting user, both at
the repository layer (the SQL has no user filter; the `userID` argument is
ignored) and at the handler layer (the `username` taken from the auth
context only reaches that ignored argument): same state, limit and offset
give the identical list and total for any two users. -/
theorem list_conversations_independent_of_user
    (s : DBState) (u1 u2 : String) (limit offset : Int)
    (limitStr offsetStr : String) :
    listConversations s u1 limit offset = listConversations s u2 limit offset
    ∧ listConversationsHandler s u1 limitStr offsetStr
        = listConversationsHandler s u2 limitStr offsetStr :=
  ⟨rfl, rfl⟩

/-- The Document row built by `UploadDocument` (`part_007` lines 113-120)
before persisting: the generated id, the derived key, the file's name and
size, status `"pending"`, the current time; no upload URL is stored. -/
def pendingUploadDoc (env : UploadEnv) (filename : String) (size : Int) : Document :=
  { id := env.newID, s3Key := "documents/" ++ env.newID ++ "/" ++ filename,
    filename := filename, fileSize := size, status := "pending",
    createdAt := env.now }

/-- C4: a valid `UploadBegin` whose presigned-URL generation and record
insert succeed (the source's non-error paths for those two collaborators)
issues its calls in the order presign, create-record, start-workflow — so
the pending row is persisted before the workflow is started; the stored row
is the pending document and stays in the store; on workflow-start success
the 200 response carries the generated (non-empty) id, the upload URL, the
key `documents/<id>/<filename>` (hence a key starting with
`documents/<id>/`) and status `"pending"`; on workflow-start failure the
caller gets an error response, with the row left behind in `pending`. -/
theorem upload_begin_response_and_persistence
    (env : UploadEnv) (db : DBState) (filename : String) (size : Int)
    (url : String)
    (hid : ¬ env.newID = "")
    (hps : env.presignResult = some url)
    (hcr : env.createDocOk = true) :
    (uploadDocumentHandler env db (some (filename, size))).2.1 =
      [UploadCall.presign ("documents/" ++ env.newID ++ "/" ++ filename) 15,
        .createDocument (pendingUploadDoc env filename size),
        .startUploadWorkflow env.newID
          ("documents/" ++ env.newID ++ "/" ++ filename)]
    ∧ (uploadDocumentHandler env db (some (filename, size))).2.2 =
        createDocumentRow db (pendingUploadDoc env filename size)
    ∧ pendingUploadDoc env filename size ∈
        (uploadDocumentHandler env db (some (filename, size))).2.2.documents
    ∧ ¬ (pendingUploadDoc env filename size).id = ""
    ∧ (pendingUploadDoc env filename size).status = "pending"
    ∧ (∃ rest, (pendingUploadDoc env filename size).s3Key =
        ("documents/" ++ env.newID ++ "/") ++ rest)
    ∧ (env.startWorkflowOk = true →
        (uploadDocumentHandler env db (some (filename, size))).1 =
          .okDoc { pendingUploadDoc env filename size with uploadURL := url })
    ∧ (env.startWorkflowOk = false →
        (uploadDocumentHandler env db (some (filename, size))).1 =
          .internalError "Failed to start upload workflow") := by
  have hkey : (pendingUploadDoc env filename size).s3Key =
      ("documents/" ++ env.newID ++ "/") ++ filename := by
    show "documents/" ++ env.newID ++ "/" ++ filename
        = ("documents/" ++ env.newID ++ "/") ++ filename
    rw [String.append_assoc, String.append_assoc]
  refine ⟨?_, ?_, ?_, hid, rfl, ⟨filename, hkey⟩, ?_, ?_⟩ <;>
    cases hwf : env.startWorkflowOk <;>
      simp [uploadDocumentHandler, hps, hcr, hwf, pendingUploadDoc,
        createDocumentRow]

/-- Witness for C4 at a concrete environment matching the spec's end-to-end
scenario: `UploadBegin("report.pdf", 1048576, ...)` with a fresh id. -/
theorem upload_begin_response_and_persistence_witness :
    (uploadDocumentHandler
        { newID := "id-1", now := 3, presignResult := some "https://u",
          createDocOk := true, startWorkflowOk := true }
        {} (some ("report.pdf", 1048576))).1 =
      .okDoc
        { pendingUploadDoc
            { newID := "id-1", now := 3, presignResult := some "https://u",
              createDocOk := true, startWorkflowOk := true }
            "report.pdf" 1048576 with uploadURL := "https://u" } :=
  ((upload_begin_response_and_persistence _ {} "report.pdf" 1048576 "https://u"
      (by decide) rfl rfl).2.2.2.2.2.2.1) rfl

/-- C5 counterexample: a gRPC query stream that delivers a `start` and a
`chunk` and then fails with a non-EOF `Recv` error ends with no terminal
event at all — the caller receives the two delivered fragments, zero
`error` events and zero `end` events, contradicting the claim that such a
caller receives exactly one terminal `error` event. -/
theorem grpc_midstream_failure_emits_no_terminal_event :
    grpcQueryEvents [.start "r1", .chunk "partial answer"]
        (.recvError "connection reset")
      = [{ type := "start", id := "r1" },
          { type := "chunk", content := "partial answer" }]
    ∧ ((grpcQueryEvents [.start "r1", .chunk "partial answer"]
          (.recvError "connection reset")).filter
        (fun e => e.type = "error")) = []
    ∧ ((grpcQueryEvents [.start "r1", .chunk "partial answer"]
          (.recvError "connection reset")).filter
        (fun e => e.type = "end")) = [] :=
  ⟨rfl, rfl, rfl⟩

/-- C5 amended: mid-stream backend failure is transport-dependent.  On the
HTTP fallback transport a read failure other than clean EOF produces a
stream whose events are exactly one terminal `STREAM_ERROR` `error` event
(and, since no data frame is ever completed there, nothing else — in
particular no `end` event).  On the gRPC transport a `Recv` failure closes
the stream with no terminal event appended: the caller sees exactly the
already-delivered fragments. -/
theorem midstream_failure_behavior_per_transport :
    (∀ (parse : List Char → Option SSEEvent) (body endErr : String),
        ¬ endErr = "EOF" →
        httpStreamEvents parse body endErr = [streamErrorEvent endErr])
    ∧ (∀ (frames : List ProtoQueryEvent) (msg : String),
        grpcQueryEvents frames (.recvError msg)
          = frames.map convertProtoEventToSSE) := by
  constructor
  · intro parse body endErr h
    rw [httpStreamEvents_eq]
    simp [h]
  · intro frames msg
    unfold grpcQueryEvents
    rw [grpcRecvLoop_eq]

/-- Witness for the amended C5 at a concrete input: a body that dies with
`unexpected EOF` yields exactly the one terminal error event. -/
theorem midstream_failure_behavior_per_transport_witness :
    httpStreamEvents (fun _ => none) "data: x\n" "unexpected EOF"
      = [streamErrorEvent "unexpected EOF"] :=
  midstream_failure_behavior_per_transport.1 _ _ _ (by decide)

/-- C6 (failing-input evaluation): on the HTTP transport a complete,
well-formed backend frame (`data: ` prefix, JSON payload, blank-line
terminator) produces no caller event whatsoever, even with an unmarshaller
that accepts every payload: the frame-completion test
`bytes.HasSuffix(line, "\n\n")` is applied to single `ReadBytes('\n')`
lines, which always carry exactly one trailing newline, so it never fires
and every backend fragment on this transport is silently discarded (while
the gRPC transport does translate an unrecognized variant to the catch-all
`"unknown"` kind). -/
theorem http_transport_silently_drops_fragments :
    httpStreamEvents (fun _ => some { type := "chunk", content := "hi" })
        "data: \x7b\"type\":\"chunk\",\"content\":\"hi\"\x7d\n\n" "EOF" = []
    ∧ (∀ (parse : List Char → Option SSEEvent) (body : String),
        httpStreamEvents parse body "EOF" = [])
    ∧ convertProtoEventToSSE .unrecognized = { type := "unknown" } := by
  refine ⟨?_, ?_, rfl⟩
  · rw [httpStreamEvents_eq]; simp
  · intro parse body
    rw [httpStreamEvents_eq]; simp

/-- C7: creating a message is a single Record Store transition (the
`INSERT` fires the `AFTER INSERT` trigger of `schema.sql` inside the same
statement) after which the owning conversation's `message_count` has grown
by exactly one and its `updated_at` equals the insert time, the message row
has been appended, and listing a conversation's messages always yields a
list ascending in `created_at`. -/
theorem message_append_atomic_and_listing_sorted
    (s : DBState) (msg : Message) (now : Time) (c : Conversation)
    (hc : getConversation s msg.conversationID = some c) :
    getConversation (createMessage s msg now) msg.conversationID
      = some { c with updatedAt := now, messageCount := c.messageCount + 1 }
    ∧ (createMessage s msg now).messages = s.messages ++ [msg]
    ∧ ∀ (s2 : DBState) (cid : String) (limit offset : Int),
        List.Sorted msgLE (getMessagesByConversationID s2 cid limit offset) := by
  refine ⟨?_, rfl, ?_⟩
  · show ((s.conversations.map _).find? _) = _
    rw [find?_map_trigger s.conversations msg.conversationID now]
    rw [show s.conversations.find? (fun x => x.id = msg.conversationID) = some c from hc]
    rfl
  · intro s2 cid limit offset
    unfold getMessagesByConversationID
    have hs : List.Sorted msgLE
        ((s2.messages.filter (fun m => m.conversationID = cid)).insertionSort msgLE) :=
      List.sorted_insertionSort msgLE _
    exact List.Pairwise.sublist
      ((List.take_sublist _ _).trans (List.drop_sublist _ _)) hs

/-- Witness for C7 at a concrete store: one conversation with zero
messages; appending a message at time 7 yields count 1 and
`updated_at = 7`. -/
theorem message_append_atomic_and_listing_sorted_witness :
    getConversation
        (createMessage { conversations := [{ id := "c1" }] }
          { id := "m1", conversationID := "c1", role := "user",
            content := "hi", createdAt := 5 } 7) "c1"
      = some { id := "c1", updatedAt := 7, messageCount := 1 } :=
  (message_append_atomic_and_listing_sorted
    { conversations := [{ id := "c1" }] }
    { id := "m1", conversationID := "c1", role := "user",
      content := "hi", createdAt := 5 }
    7 { id := "c1" } rfl).1

/-- C10: for the three paginated handlers (which share this parameter code
verbatim), the effective limit is the `limit` query parameter exactly when
Go `strconv.Atoi` parses it to a value in 1..100 and 50 otherwise
(non-numeric, zero, negative, out of range), and the effective offset is
the `offset` parameter exactly when it parses to a non-negative value and 0
otherwise. -/
theorem pagination_limit_offset_parsing :
    (∀ (s : String) (l : Int), goAtoi s = some l → 1 ≤ l → l ≤ 100 →
        effectiveLimit s = l)
    ∧ (∀ s : String, goAtoi s = none → effectiveLimit s = 50)
    ∧ (∀ (s : String) (l : Int), goAtoi s = some l → l < 1 ∨ 100 < l →
        effectiveLimit s = 50)
    ∧ (∀ (s : String) (o : Int), goAtoi s = some o → 0 ≤ o →
        effectiveOffset s = o)
    ∧ (∀ s : String, goAtoi s = none → effectiveOffset s = 0)
    ∧ (∀ (s : String) (o : Int), goAtoi s = some o → o < 0 →
        effectiveOffset s = 0) := by
  have hemp : goAtoi "" = none := rfl
  refine ⟨?_, ?_, ?_, ?_, ?_, ?_⟩
  · intro s l h h1 h100
    by_cases hs : s = ""
    · subst hs; rw [hemp] at h; exact Option.noConfusion h
    · have : (0 : Int) < l := by omega
      simp [effectiveLimit, hs, h, this, h100]
  · intro s h
    by_cases hs : s = ""
    · subst hs; rfl
    · simp [effectiveLimit, hs, h]
  · intro s l h hr
    by_cases hs : s = ""
    · subst hs; rw [hemp] at h; exact Option.noConfusion h
    · have : ¬ (0 < l ∧ l ≤ 100) := by omega
      simp [effectiveLimit, hs, h, this]
  · intro s o h h0
    by_cases hs : s = ""
    · subst hs; rw [hemp] at h; exact Option.noConfusion h
    · simp [effectiveOffset, hs, h, h0]
  · intro s h
    by_cases hs : s = ""
    · subst hs; rfl
    · simp [effectiveOffset, hs, h]
  · intro s o h hneg
    by_cases hs : s = ""
    · subst hs; rw [hemp] at h; exact Option.noConfusion h
    · have : ¬ (0 : Int) ≤ o := by omega
      simp [effectiveOffset, hs, h, this]

/-- Witness for C10 at concrete parameters: an in-range limit is used, an
out-of-range limit falls back to 50, a non-negative offset is used. -/
theorem pagination_limit_offset_parsing_witness :
    effectiveLimit "7" = 7 ∧ effectiveLimit "200" = 50
    ∧ effectiveOffset "3" = 3 :=
  ⟨pagination_limit_offset_parsing.1 "7" 7 (by decide) (by decide) (by decide),
    pagination_limit_offset_parsing.2.2.1 "200" 200 (by decide)
      (Or.inr (by decide)),
    pagination_limit_offset_parsing.2.2.2.1 "3" 3 (by decide) (by decide)⟩

end KBGateway
